import Mathlib

/-!
Shallow embedding of `scripts/stokes_fold.py` (mwa_search repository).

Modelling conventions:
* Python floats are modelled as exact rationals `ℚ`; `float(...)` parsing is
  modelled by `pyFloat?` on the decimal-literal subset that the pipeline's
  data files use (optional sign, digits, optional fractional part).
* A text file read with `readlines()` followed by per-line `line.split()` is
  modelled as a `List (List String)`: each physical line is represented by its
  whitespace-token list (Python's `str.split()` yields `[]` for a blank line).
* Python exceptions are modelled with `Except PyErr`; `sys.exit(1)` after a
  caught exception is `PyErr.sysExit`.
* Python truthiness on an optional float (`if not x:`) is `pyTruthyOptQ`:
  `None` and `0.0` are falsy.
* A builder's Python signature `def f(..., commands=None)` together with the
  idiom `if not commands: commands = []` and subsequent `commands.append(...)`
  is modelled by `pyAppendDefault`: it returns both the list the function
  returns and the state of the caller's list object after the call (the
  caller's list is mutated exactly when a non-empty list was passed, because
  an empty list is falsy and gets replaced by a fresh list).
  `add_rmsynth_to_commands` / `add_pfb_inversion_to_commands` instead use
  `if commands is None:`, modelled by `pyAppendIsNone`.
-/

/-- Python runtime errors raised by the embedded code paths. -/
inductive PyErr
  | indexError
  | valueError
  | nameError
  | typeError
  | attributeError
  | sysExit
  deriving DecidableEq, Repr

/-- The numeric value of a decimal digit character, if it is one. -/
def digitVal? (c : Char) : Option ℕ :=
  if '0' ≤ c ∧ c ≤ '9' then some (c.toNat - 48) else none

/-- A non-empty all-digit character run to `ℕ`, `none` otherwise. -/
def digitsVal? (cs : List Char) : Option ℕ :=
  match cs with
  | [] => none
  | _ =>
    cs.foldl (fun acc c =>
      match acc, digitVal? c with
      | some a, some d => some (10 * a + d)
      | _, _ => none) (some 0)

/-- Split a character list at every `'.'` (Python `s.split(".")`). -/
def splitDotAux : List Char → List Char → List (List Char)
  | [], acc => [acc.reverse]
  | c :: cs, acc =>
    if c = '.' then acc.reverse :: splitDotAux cs []
    else splitDotAux cs (c :: acc)

/-- Unsigned decimal literal to `ℚ`: accepts `"40"`, `"40.0"`, `".5"`, `"5."`. -/
def pyFloatCore? (cs : List Char) : Option ℚ :=
  match splitDotAux cs [] with
  | [a] => (digitsVal? a).map (fun n => (n : ℚ))
  | [a, b] =>
    if a.isEmpty && b.isEmpty then none
    else
      match (if a.isEmpty then some 0 else digitsVal? a),
            (if b.isEmpty then some 0 else digitsVal? b) with
      | some ia, some ib => some ((ia : ℚ) + (ib : ℚ) / (10 ^ b.length))
      | _, _ => none
  | _ => none

/-- Python `float(s)` on the decimal-literal subset used by the pipeline
(optional sign, digits, optional fractional part). -/
def pyFloat? (s : String) : Option ℚ :=
  match s.data with
  | '-' :: rest => (pyFloatCore? rest).map Neg.neg
  | '+' :: rest => pyFloatCore? rest
  | cs => pyFloatCore? cs

/-- Rendering of a numeric value into a command string (Python `str.format` on
a float; the exact float spelling is immaterial to every property proved
below, only that it is a function of the value). -/
def pyStr (q : ℚ) : String := toString q

/-- `os.path.join` for the relative second components used by this script. -/
def pyJoin (a b : String) : String :=
  if a = "" then b else if a.endsWith "/" then a ++ b else a ++ "/" ++ b

/-- Python truthiness of an optional float: `None` and `0.0` are falsy. -/
def pyTruthyOptQ : Option ℚ → Bool
  | none => false
  | some q => q != 0

/-- Python truthiness of an optional string: `None` and `""` are falsy. -/
def pyTruthyOptS : Option String → Bool
  | none => false
  | some s => s != ""

/-- The `if not commands: commands = []` idiom followed by appending `new` and
returning `commands`. Result: (returned list, caller's list object after the
call). A passed non-empty list is mutated in place and aliased by the return
value; `None` or an empty (falsy) list is replaced by a fresh list, leaving
the caller's object untouched. -/
def pyAppendDefault (commands : Option (List String)) (new : List String) :
    List String × Option (List String) :=
  match commands with
  | none => (new, none)
  | some l => if l = [] then (new, some []) else (l ++ new, some (l ++ new))

/-- The `if commands is None: commands = []` idiom followed by appends:
any passed list (empty or not) is mutated in place. -/
def pyAppendIsNone (commands : Option (List String)) (new : List String) :
    List String × Option (List String) :=
  match commands with
  | none => (new, none)
  | some l => (l ++ new, some (l ++ new))

/-! ### `find_RM_from_cat` (stokes_fold.py lines 111-136)

The psrqpy ATNF catalogue query is an external collaborator; its two result
cells `query["RM"][0]` and `query["RM_ERR"][0]` are inputs here, with `none`
standing for a NaN cell (the code tests them with `np.isnan`). -/
def find_RM_from_cat (catRM catErr : Option ℚ) : Option ℚ × Option ℚ :=
  match catRM with
  | none => (none, none)
  | some rm =>
    match catErr with
    | none => (some rm, some (0.15 * rm))
    | some e => (some rm, some e)

/-! ### `find_RM_from_file` (stokes_fold.py lines 138-174)

The file is a `List (List String)` of whitespace-token lines. The loop tests
`line[0] == "Best" and line[1] == "RM"` (short-circuit: `line[1]` is only
evaluated when `line[0] == "Best"`), then takes `rm = float(line[3])`, and
`rm_err = float(line[5])` when `len(line) >= 5`, else `rm_err = None`. -/
def find_RM_from_file : List (List String) → Except PyErr (Option ℚ × Option ℚ)
  | [] => .ok (none, none)
  | line :: rest =>
    match line with
    | [] => .error .indexError                 -- line[0] on an empty token list
    | [t0] => if t0 = "Best" then .error .indexError else find_RM_from_file rest
    | t0 :: t1 :: _ =>
      if t0 = "Best" && t1 = "RM" then
        match List.get? line 3 with
        | none => .error .indexError           -- float(line[3])
        | some t3 =>
          match pyFloat? t3 with
          | none => .error .valueError
          | some rm =>
            if line.length ≥ 5 then
              match List.get? line 5 with
              | none => .error .indexError     -- len(line) == 5: line[5] is out of range
              | some t5 =>
                match pyFloat? t5 with
                | none => .error .valueError
                | some e => .ok (some rm, some e)
            else .ok (some rm, none)
      else find_RM_from_file rest

/-! ### Stage decision engine: `work_out_what_to_do` (stokes_fold.py lines 777-848)

The eight glob categories are reduced to presence booleans; the decision is the
branch of the main logic structure that fires. `ReportInconsistentState` is the
final `else` (lines 836-843), `NoValidFiles` the outer `else` (lines 845-848). -/
structure StageArtifactSet where
  fits : Bool      -- *.fits
  hdr : Bool       -- *.hdr
  rmfit : Bool     -- *{pulsar}*_rmfit.txt
  rmsynth : Bool   -- *RM_synthesis*.txt
  rvm : Bool       -- *{pulsar}*_RVM_fit.txt
  ar : Bool        -- *{pulsar}*_archive.ar
  ar2 : Bool       -- *{pulsar}*_archive.ar2
  chimap : Bool    -- *chi_map*.txt
  deriving DecidableEq, Repr

inductive StageDecision
  | RunFold (ipfb : Bool)
  | RunRMCorrectionAndRVM (ipfb : Bool)
  | RunPlotAndTerminate
  | ReportInconsistentState
  | NoValidFiles
  deriving DecidableEq, Repr

def work_out_what_to_do (s : StageArtifactSet) : StageDecision :=
  let rm_and_ar_exist := s.rmfit && s.ar
  let ar2_and_rvm_exist := s.ar2 && s.rvm
  let ipfb := s.hdr
  if s.hdr || s.fits then
    if !rm_and_ar_exist then .RunFold ipfb
    else if rm_and_ar_exist && !ar2_and_rvm_exist then .RunRMCorrectionAndRVM ipfb
    else if ar2_and_rvm_exist then .RunPlotAndTerminate
    else .ReportInconsistentState
  else .NoValidFiles

/-! ### `read_rvm_fit_file` (stokes_fold.py lines 176-252)

The parser walks the file's lines through an `elif` chain keyed on a line's
suffix/prefix. A line is modelled by the first branch of that chain it
matches (the branches are tested in source order, so e.g. a line starting
with `"alpha=("` hits the `alpha=(` branch and is never counted by the final
`alpha=` branch):
* `bins n`      — `line.endswith("bins\n")`, `n = int(line.split()[-2])`
* `chisq d c`   — `line[0:6] == "chisq="`, reduced chi-square and dof
* `psi0 v e`    — `line[0:7] == "psi_0=("`
* `zeta v`      — `line[0:7] == "zeta =("` (the value only; no uncertainty)
* `alphaFit v`  — `line[0:7] == "alpha=("` (the value only; no uncertainty)
* `phi0 v e`    — `line[0:7] == "phi_0=("`
* `alphaTrial`  — `line[0:6] == "alpha="` but not `"alpha=("`: counted into
  `n_elements`
* `other`       — any other line.

`np.sqrt` on the trial count is a floating-point operation with (generally)
irrational exact value; it is modelled by an abstract function argument
`sqrtQ : ℕ → ℚ`, so `180/np.sqrt(n_elements)/2` is `180 / sqrtQ n / 2`.
Every theorem below is universally quantified over `sqrtQ`. -/
inductive RvmLine
  | bins (n : ℤ)
  | chisq (dof : ℤ) (redchisq : ℚ)
  | psi0 (v e : ℚ)
  | zeta (v : ℚ)
  | alphaFit (v : ℚ)
  | phi0 (v e : ℚ)
  | alphaTrial
  | other
  deriving DecidableEq, Repr

/-- The eleven-key dictionary built up by the reading loop (all keys start
as `None`). `nElements` is the `n_elements` counter. -/
structure RvmScan where
  nbins : Option ℤ := none
  redchisq : Option ℚ := none
  dof : Option ℤ := none
  psi_0 : Option ℚ := none
  psi_0_e : Option ℚ := none
  zeta : Option ℚ := none
  zeta_e : Option ℚ := none
  alpha : Option ℚ := none
  alpha_e : Option ℚ := none
  phi_0 : Option ℚ := none
  phi_0_e : Option ℚ := none
  nElements : ℕ := 0
  deriving DecidableEq, Repr

/-- One iteration of the reading loop (stokes_fold.py lines 222-243).
`psi_0_e` and `phi_0_e` store `abs(float(...))`. -/
def rvmScanStep (s : RvmScan) : RvmLine → RvmScan
  | .bins n => { s with nbins := some n }
  | .chisq d c => { s with redchisq := some c, dof := some d }
  | .psi0 v e => { s with psi_0 := some v, psi_0_e := some |e| }
  | .zeta v => { s with zeta := some v }
  | .alphaFit v => { s with alpha := some v }
  | .phi0 v e => { s with phi_0 := some v, phi_0_e := some |e| }
  | .alphaTrial => { s with nElements := s.nElements + 1 }
  | .other => s

def rvmScan (lines : List RvmLine) : RvmScan :=
  lines.foldl rvmScanStep {}

/-- The fully populated result dictionary (every key found). -/
structure RvmDict where
  nbins : ℤ
  redchisq : ℚ
  dof : ℤ
  psi_0 : ℚ
  psi_0_e : ℚ
  zeta : ℚ
  zeta_e : ℚ
  alpha : ℚ
  alpha_e : ℚ
  phi_0 : ℚ
  phi_0_e : ℚ
  deriving DecidableEq, Repr

/-- `read_rvm_fit_file`: run the loop, then set
`alpha_e = zeta_e = 180/sqrt(n_elements)/2` (lines 245-246), then raise
`NotFoundError` naming the first `None` key in `keylist` order
`(nbins, redchisq, dof, psi_0, psi_0_e, zeta, zeta_e, alpha, alpha_e,
phi_0, phi_0_e)` — `zeta_e` and `alpha_e` have just been assigned, so their
checks never fire and are omitted. -/
def read_rvm_fit_file (sqrtQ : ℕ → ℚ) (lines : List RvmLine) :
    Except String RvmDict :=
  match (rvmScan lines).nbins with
  | none => .error "nbins"
  | some nb =>
  match (rvmScan lines).redchisq with
  | none => .error "redchisq"
  | some rc =>
  match (rvmScan lines).dof with
  | none => .error "dof"
  | some df =>
  match (rvmScan lines).psi_0 with
  | none => .error "psi_0"
  | some p0 =>
  match (rvmScan lines).psi_0_e with
  | none => .error "psi_0_e"
  | some p0e =>
  match (rvmScan lines).zeta with
  | none => .error "zeta"
  | some z =>
  match (rvmScan lines).alpha with
  | none => .error "alpha"
  | some a =>
  match (rvmScan lines).phi_0 with
  | none => .error "phi_0"
  | some ph =>
  match (rvmScan lines).phi_0_e with
  | none => .error "phi_0_e"
  | some phe =>
    .ok ⟨nb, rc, df, p0, p0e, z, 180 / sqrtQ (rvmScan lines).nElements / 2, a,
         180 / sqrtQ (rvmScan lines).nElements / 2, ph, phe⟩

/-- Number of `alpha=`-but-not-`alpha=(` lines (the `n_elements` counter). -/
def countAlphaTrial (lines : List RvmLine) : ℕ :=
  lines.countP (fun l => l = .alphaTrial)

def isBinsLine : RvmLine → Bool
  | .bins _ => true
  | _ => false

def isChisqLine : RvmLine → Bool
  | .chisq _ _ => true
  | _ => false

def isPsi0Line : RvmLine → Bool
  | .psi0 _ _ => true
  | _ => false

def isZetaLine : RvmLine → Bool
  | .zeta _ => true
  | _ => false

def isAlphaFitLine : RvmLine → Bool
  | .alphaFit _ => true
  | _ => false

def isPhi0Line : RvmLine → Bool
  | .phi0 _ _ => true
  | _ => false

/-! ### RM resolution in the plotting branch (stokes_fold.py lines 822-830)

```
if rm_synth_files:
    rm_dict = rm_synthesis.read_rmsynth_out(rm_synth_files[0])
    rm = rm_dict["0"]["rm"]; rm_e = rm_dict["0"]["rm_e"]
elif rm_fit_files:
    rm, rm_e = find_RM_from_file(rm_fit_files[0])
if not rm:
    rm, rm_e = find_RM_from_cat(run_params.pulsar)
```
A synthesis file is modelled by the `(rm, rm_e)` pair its parse yields
(`rm_synthesis.read_rmsynth_out` is an external module); a fit file by its
token-line list; the catalogue query by its `(RM, RM_ERR)` cells as in
`find_RM_from_cat`. With no synthesis and no fit file, neither branch binds
the local `rm`, and the following `if not rm:` raises `NameError`. -/
def resolve_rm_for_plot (synths : List (ℚ × ℚ)) (fits : List (List (List String)))
    (catRM catErr : Option ℚ) : Except PyErr (Option ℚ × Option ℚ) :=
  match synths with
  | (rm, rm_e) :: _ =>
    if rm = 0 then .ok (find_RM_from_cat catRM catErr)
    else .ok (some rm, some rm_e)
  | [] =>
    match fits with
    | f :: _ =>
      match find_RM_from_file f with
      | .error e => .error e
      | .ok (rm, rm_e) =>
        if pyTruthyOptQ rm then .ok (rm, rm_e)
        else .ok (find_RM_from_cat catRM catErr)
    | [] => .error .nameError

/-! ### Command builders (stokes_fold.py lines 299-577)

Each builder yields `(returned list, caller's commands object after the call)`
via `pyAppendDefault` / `pyAppendIsNone` (see the module comment).
Optional-with-default Python parameters are explicit arguments here; the
defaults the call sites rely on are noted per builder. -/

/-- `add_rvm_to_commands` (lines 299-328). Defaults: `out_name="RVM_fit.txt"`,
`commands=None`, `res=90`. -/
def add_rvm_to_commands (run_dir archive_name out_name : String)
    (commands : Option (List String)) (res : ℕ) :
    List String × Option (List String) :=
  let archive :=
    if archive_name.takeRight 4 ≠ ".ar2" ∧ archive_name.takeRight 3 ≠ ".ar" then
      archive_name ++ ".ar2"
    else archive_name
  pyAppendDefault commands
    ["cd " ++ run_dir,
     "echo 'Fitting RVM'",
     "psrmodel " ++ archive ++ " -resid -psi-resid -x -s " ++ toString res ++ "X"
       ++ toString res ++ " &> " ++ out_name ++ " > chi_map.txt"]

/-- `add_rm_cor_to_commands` (lines 330-368). `if not RM:` raises `ValueError`
before any command is appended, so on that path the caller's list comes back
untouched; the first component is the function's outcome. Defaults:
`ascii_name="rm_fit_ascii_archive.txt"`, `commands=None`. -/
def add_rm_cor_to_commands (run_dir archive_name : String) (RM : Option ℚ)
    (ascii_name : String) (commands : Option (List String)) :
    Except PyErr (List String) × Option (List String) :=
  let archive :=
    if archive_name.takeRight 3 ≠ ".ar" then archive_name ++ ".ar" else archive_name
  match RM with
  | none => (.error .valueError, commands)
  | some r =>
    if r = 0 then (.error .valueError, commands)
    else
      let out := pyAppendDefault commands
        ["cd " ++ run_dir,
         "echo 'Correcting for input rotation measure: " ++ pyStr r ++ "'",
         "pam -e ar2 -R " ++ pyStr r ++ " " ++ archive,
         "echo 'Wiritng result to text file'",
         "pdv -FTtlZ " ++ archive ++ "2 > " ++ ascii_name]
      (.ok out.1, out.2)

/-- `add_rm_fit_to_commands` (lines 370-403). Defaults: `out_name=None`
(synthesized as `run_dir/{pulsar}_rmfit.txt`), `commands=None`. -/
def add_rm_fit_to_commands (pulsar run_dir archive_name : String)
    (out_name : Option String) (commands : Option (List String)) :
    List String × Option (List String) :=
  let out :=
    if pyTruthyOptS out_name then out_name.getD ""
    else pyJoin run_dir (pulsar ++ "_rmfit.txt")
  let archive :=
    if archive_name.takeRight 3 ≠ ".ar" then archive_name ++ ".ar" else archive_name
  pyAppendDefault commands
    ["cd " ++ run_dir,
     "echo 'Attempting to find rotation measure.\nOutputting result to " ++ out ++ "'",
     "rmfit " ++ archive ++ " -t > " ++ out]

/-- `add_rmsynth_to_commands` (lines 405-445). Tests `commands is None`, not
truthiness. Defaults: `label=""`, `write=True`, `plot=True`, `keep_QUV=False`. -/
def add_rmsynth_to_commands (run_dir archive_name label : String)
    (write plot keep_QUV : Bool) (commands : Option (List String)) :
    List String × Option (List String) :=
  let rms_coms := "rm_synthesis.py" ++ " -f " ++ archive_name
    ++ (if label ≠ "" then " --label " ++ label else "")
    ++ (if write then " --write" else "")
    ++ (if plot then " --plot" else "")
    ++ (if keep_QUV then " --keep_QUV" else "")
    ++ " --force_single"
  pyAppendIsNone commands
    ["cd " ++ run_dir,
     "echo 'perfoming RM synthesis'",
     rms_coms]

/-- `add_pfb_inversion_to_commands` (lines 447-507). Tests `commands is None`.
Defaults: `nbins=1024`, `seek=None`, `total=None`, `tscrunch=100`, `dm=None`,
`period=None`. Note `if seek and total:` uses float truthiness: a zero seek
suppresses the `-S` and `-T` pair. -/
def add_pfb_inversion_to_commands (run_dir pulsar obsid : String) (nbins : ℕ)
    (seek total : Option ℚ) (commands : Option (List String)) (tscrunch : ℚ)
    (dm period : Option ℚ) :
    List String × Option (List String) :=
  let dspsr_coms := "dspsr -U 8000 -A -cont -no_dyn"
    ++ " -L " ++ pyStr tscrunch
    ++ " -E " ++ pulsar ++ ".eph"
    ++ " -b " ++ toString nbins
    ++ (match dm with | some d => if d ≠ 0 then " -D " ++ pyStr d else "" | none => "")
    ++ (match period with | some p => if p ≠ 0 then " -c " ++ pyStr p else "" | none => "")
    ++ (if pyTruthyOptQ seek ∧ pyTruthyOptQ total then
          " -S " ++ pyStr (seek.getD 0) ++ " -T " ++ pyStr (total.getD 0)
        else "")
  let psradd_coms := "psradd -R -m time " ++ obsid ++ "_" ++ pulsar
    ++ "_inverse_pfb*ar -o " ++ obsid ++ "_" ++ pulsar ++ "_ipfb_archive.ar"
  pyAppendIsNone commands
    ["cd " ++ run_dir,
     "psrcat -e " ++ pulsar ++ " > " ++ pulsar ++ ".eph",
     "echo 'Folding on vdif files'",
     "j=0",
     "for i in *.hdr;",
     "   do " ++ dspsr_coms ++ " -O " ++ obsid ++ "_" ++ pulsar ++ "_inverse_pfb_$j $i ;",
     "   j=$((j+1))",
     "done;",
     "echo 'Combining archives'",
     psradd_coms,
     "echo 'Converting to ascii text'",
     "pdv -FTtlZ " ++ obsid ++ "_" ++ pulsar ++ "_ipfb_archive.ar > " ++ obsid
       ++ "_" ++ pulsar ++ "_ipfb_archive.txt"]

/-- `add_dspsr_fold_to_commands` (lines 509-577). Besides its twelve explicit
parameters the source reads ONE module-level binding: line 572 tests
`run_params.no_ephem` on the global `run_params` (the parameter `no_ephem`
is used at line 562 for the `-E` flag). That hidden input is the final
argument `g_no_ephem` here. Defaults: `out_name=None`
(synthesized as `{pulsar}_archive`), `commands=None`, `seek/total/subint=None`,
`dspsr_ops=""`, `no_ephem=False`, `dm/period=None`. -/
def add_dspsr_fold_to_commands (pulsar run_dir : String) (nbins : ℕ)
    (out_name : Option String) (commands : Option (List String))
    (seek total subint : Option ℚ) (dspsr_ops : String) (no_ephem : Bool)
    (dm period : Option ℚ) (g_no_ephem : Bool) :
    List String × Option (List String) :=
  let out := if pyTruthyOptS out_name then out_name.getD "" else pulsar ++ "_archive"
  let ops := dspsr_ops
    ++ " " ++ run_dir ++ "/*.fits"
    ++ " -O " ++ pyJoin run_dir out
    ++ " -b " ++ toString nbins
    ++ (match dm with | some d => if d ≠ 0 then " -D " ++ pyStr d else "" | none => "")
    ++ (match period with | some p => if p ≠ 0 then " -c " ++ pyStr p else "" | none => "")
    ++ (if ¬no_ephem then " -E " ++ pyJoin run_dir pulsar ++ ".eph" else "")
    ++ (if pyTruthyOptQ subint then " -L " ++ pyStr (subint.getD 0) else "")
    ++ (if pyTruthyOptQ seek then " -S " ++ pyStr (seek.getD 0) else "")
    ++ (if pyTruthyOptQ total then " -T " ++ pyStr (total.getD 0) else "")
  pyAppendDefault commands
    (["cd " ++ run_dir]
     ++ (if ¬g_no_ephem then
          ["psrcat -e " ++ pulsar ++ " > " ++ run_dir ++ "/" ++ pulsar ++ ".eph"]
        else [])
     ++ ["echo 'Running DSPSR folding...'",
         "dspsr -cont -U 8000 -A -K " ++ ops])

/-! ### The run context and the submit functions (stokes_fold.py lines 579-775, 850-946) -/

/-- The RunContext: the `rp` dictionary built in `__main__` (lines 925-944)
handed to `dpp.run_params_class`. Fields that feed only the job's metadata
(job names, module versions: `mwa_search`, `vcs_tools`, `loglvl`) or only the
plotting stage (`freq`) are omitted — no command list depends on them.
`beg`/`end` may be absent (candidate folds); `end` is spelled `end_` because
`end` is a Lean keyword. The dead-code field `RM` is late-bound inside
`submit_rm_cor_rvm` and never read from the context, so it is not a field. -/
structure RunParams where
  pointing_dir : String
  pulsar : String
  obsid : String
  stop : Bool
  stokes_bins : ℕ
  subint : Option ℚ
  beg : Option ℚ
  end_ : Option ℚ
  dspsr_ops : String
  no_ephem : Bool
  dm : Option ℚ
  period : Option ℚ
  cand : Bool
  rvmres : ℕ
  deriving DecidableEq, Repr

/-- Modelled from the spec: `dpp.stokes_launch_line` (module
`data_processing_pipeline` is not part of this repository snapshot) —
"an invocation of itself with the identical RunContext serialized back into
command-line form". Only its identity as a single trailing command matters
to the theorems below. -/
def stokes_launch_line (rp : RunParams) : String :=
  "stokes_fold.py -d " ++ rp.pointing_dir ++ " -p " ++ rp.pulsar
    ++ " -o " ++ rp.obsid ++ " -b " ++ toString rp.stokes_bins
    ++ (match rp.beg with | some b => " --beg " ++ pyStr b | none => "")
    ++ (match rp.end_ with | some e => " --end " ++ pyStr e | none => "")
    ++ (if rp.cand then " --cand" else "")
    ++ (if rp.no_ephem then " --no_ephem" else "")
    ++ (if rp.stop then " -S" else "")

/-- The beam-coverage block shared verbatim by `submit_inverse_pfb_fold`
(lines 594-614) and `submit_dspsr_rmfit` (lines 662-682). `enter`/`leave` are
the fractions returned by the external `binfinder.find_fold_times`; for a
known pulsar `obs_int = end - beg` raises `TypeError` when either bound is
`None`. Yields `(enter_sec, duration)`. -/
def beam_window (cand : Bool) (beg end_ : Option ℚ) (enter leave : Option ℚ) :
    Except PyErr (Option ℚ × Option ℚ) :=
  if cand then .ok (none, none)
  else
    match beg, end_ with
    | some b, some e =>
      let obs_int := e - b
      match enter, leave with
      | some en, some lv =>
        let duration := (lv - en) * obs_int
        .ok (some (en * duration), some duration)
      | _, _ => .ok (some 0, some obs_int)
    | _, _ => .error .typeError

/-- The command list `submit_dspsr_rmfit` (lines 653-695) hands to the job
dispatcher, before the relaunch conditional: dspsr fold, then rmfit, then RM
synthesis, chained through the `commands` argument. Inside the running
pipeline the global `run_params` is the same object as `rp`, so the fold
builder's hidden global flag equals `rp.no_ephem` here. -/
def dspsr_rmfit_stage (rp : RunParams) (enter leave : Option ℚ) :
    Except PyErr (List String) :=
  match beam_window rp.cand rp.beg rp.end_ enter leave with
  | .error e => .error e
  | .ok (enter_sec, duration) =>
    let file_name := rp.obsid ++ "_" ++ rp.pulsar ++ "_archive"
    let c1 := (add_dspsr_fold_to_commands rp.pulsar rp.pointing_dir rp.stokes_bins
      (some file_name) none enter_sec duration rp.subint rp.dspsr_ops rp.no_ephem
      rp.dm rp.period rp.no_ephem).1
    let out_name := rp.obsid ++ "_" ++ rp.pulsar ++ "_rmfit.txt"
    let c2 := (add_rm_fit_to_commands rp.pulsar rp.pointing_dir file_name
      (some out_name) (some c1)).1
    let c3 := (add_rmsynth_to_commands rp.pointing_dir (file_name ++ ".ar") ""
      true true false (some c2)).1
    .ok c3

/-- `submit_dspsr_rmfit`, lines 697-700: the built stage commands, plus the
self-relaunch line appended last unless `run_params.stop` is set. -/
def submit_dspsr_rmfit_commands (rp : RunParams) (enter leave : Option ℚ) :
    Except PyErr (List String) :=
  match dspsr_rmfit_stage rp enter leave with
  | .error e => .error e
  | .ok c => .ok (if rp.stop then c else c ++ [stokes_launch_line rp])

/-- The command list `submit_rm_cor_rvm` (lines 718-760) hands to the job
dispatcher, before the relaunch conditional. `synths` are the parsed
`(rm, rm_e)` pairs of the `*RMsynthesis*.txt` glob, `fits` the token-line
contents of the `*_rmfit.txt` glob (whose `[0]` indexing raises `IndexError`
when empty, line 739), `catRM`/`catErr` the catalogue cells. A `ValueError`
from the RM-correction builder is caught and turned into `sys.exit(1)`
(lines 753-757). -/
def rm_cor_rvm_stage (rp : RunParams) (ipfb : Bool) (synths : List (ℚ × ℚ))
    (fits : List (List (List String))) (catRM catErr : Option ℚ) :
    Except PyErr (List String) :=
  let base := rp.obsid ++ "_" ++ rp.pulsar
  let archive_name := if ipfb then base ++ "_ipfb_archive.ar" else base ++ "_archive.ar"
  let ascii_name := if ipfb then base ++ "_ipfb_archive.txt" else base ++ "_archive.txt"
  let rvm_name := if ipfb then base ++ "_ipfb_RVM_fit.txt" else base ++ "_RVM_fit.txt"
  match fits with
  | [] => .error .indexError
  | f :: _ =>
    let step1 : Except PyErr (Option ℚ) :=
      match synths with
      | (rm, _) :: _ => .ok (some rm)
      | [] => (find_RM_from_file f).map (fun p => p.1)
    match step1 with
    | .error e => .error e
    | .ok rm0 =>
      let RM := if pyTruthyOptQ rm0 then rm0 else (find_RM_from_cat catRM catErr).1
      match (add_rm_cor_to_commands rp.pointing_dir archive_name RM ascii_name none).1 with
      | .error _ => .error .sysExit
      | .ok c1 =>
        let c2 := (add_rvm_to_commands rp.pointing_dir (archive_name ++ "2") rvm_name
          (some c1) rp.rvmres).1
        .ok c2

/-- `submit_rm_cor_rvm`, lines 762-765: stage commands plus the self-relaunch
line appended last unless `run_params.stop` is set. -/
def submit_rm_cor_rvm_commands (rp : RunParams) (ipfb : Bool)
    (synths : List (ℚ × ℚ)) (fits : List (List (List String)))
    (catRM catErr : Option ℚ) : Except PyErr (List String) :=
  match rm_cor_rvm_stage rp ipfb synths fits catRM catErr with
  | .error e => .error e
  | .ok c => .ok (if rp.stop then c else c ++ [stokes_launch_line rp])

/-- `submit_inverse_pfb_fold` (lines 579-651). After the beam block, line 616
recomputes `duration = run_params.end - run_params.beg` (overwriting the beam
result), the pfb-inversion and rmfit builders run, and then line 625 evaluates
`run_params.puslar` — a misspelling of `pulsar`; the RunContext (modelled from
the spec's field list and the `rp` dictionary of `__main__`) has no such
attribute, so an `AttributeError` is raised before the rm-synthesis command,
the relaunch conditional (lines 628-634) and the job submission are reached.
(That conditional also tests this function's local `stop` parameter — `False`
at the only call site, line 804 — before `run_params.stop`.) -/
def submit_inverse_pfb_fold_commands (rp : RunParams) (stop : Bool)
    (enter leave : Option ℚ) : Except PyErr (List String) :=
  match beam_window rp.cand rp.beg rp.end_ enter leave with
  | .error e => .error e
  | .ok (enter_sec, _) =>
    match rp.beg, rp.end_ with
    | some b, some e =>
      let duration := e - b
      let c1 := (add_pfb_inversion_to_commands rp.pointing_dir rp.pulsar rp.obsid
        1024 enter_sec (some duration) none duration none none).1
      let archive_name := rp.obsid ++ "_" ++ rp.pulsar ++ "_ipfb_archive.ar"
      let rmfit_name := rp.obsid ++ "_" ++ rp.pulsar ++ "_ipfb_rmfit.txt"
      let _c2 := (add_rm_fit_to_commands rp.pulsar rp.pointing_dir archive_name
        (some rmfit_name) (some c1)).1
      .error .attributeError
    | _, _ => .error .typeError

/-- A token-line the `find_RM_from_file` loop passes over without effect and
without raising: its first token exists and the line does not open with
`Best RM` (a lone `["Best"]` would raise on `line[1]`). -/
def skipsBestRM : List String → Bool
  | [] => false
  | [t0] => !(t0 = "Best")
  | t0 :: t1 :: _ => !(t0 = "Best" && t1 = "RM")

/-- A concrete complete RVM fit file: every required line kind present, and
four trial `alpha=` lines. -/
def rvmSampleLines : List RvmLine :=
  [.bins 100, .chisq 20 3, .psi0 1 2, .zeta 4, .alphaFit 5, .phi0 6 7,
   .alphaTrial, .alphaTrial, .alphaTrial, .alphaTrial]

/-! ## Theorems -/

/-- C1: for the canonical artifact progression (raw or header input present;
first no stage outputs, then folded archive + rmfit file, then additionally
RM-corrected archive + RVM-fit file) the stage decision function yields, in
order, RunFold, RunRMCorrectionAndRVM, RunPlotAndTerminate — no stage skipped
or regressed. -/
theorem C1_progress_monotonicity (fits hdr : Bool) (h : (fits || hdr) = true) :
    work_out_what_to_do ⟨fits, hdr, false, false, false, false, false, false⟩
      = .RunFold hdr ∧
    work_out_what_to_do ⟨fits, hdr, true, false, false, true, false, false⟩
      = .RunRMCorrectionAndRVM hdr ∧
    work_out_what_to_do ⟨fits, hdr, true, false, true, true, true, false⟩
      = .RunPlotAndTerminate := by
  cases fits <;> cases hdr <;> simp_all [work_out_what_to_do]

/-- C1 witness: the progression evaluated for a `.fits` (non-inverse-PFB)
working directory. -/
theorem C1_progress_monotonicity_witness :
    (true || false) = true ∧
    (work_out_what_to_do ⟨true, false, false, false, false, false, false, false⟩
        = .RunFold false ∧
      work_out_what_to_do ⟨true, false, true, false, false, true, false, false⟩
        = .RunRMCorrectionAndRVM false ∧
      work_out_what_to_do ⟨true, false, true, false, true, true, true, false⟩
        = .RunPlotAndTerminate) :=
  ⟨rfl, C1_progress_monotonicity true false rfl⟩

/-- C2 counterexample: an artifact set with raw input and an RM-corrected
archive but no folded archive is dispatched to the fold stage, not reported
as inconsistent (the claim says it yields ReportInconsistentState). -/
theorem C2_counterexample :
    work_out_what_to_do ⟨true, false, true, false, true, false, true, false⟩
      = .RunFold false ∧
    work_out_what_to_do ⟨true, false, true, false, true, false, true, false⟩
      ≠ .ReportInconsistentState :=
  ⟨rfl, by decide⟩

/-- C2 (amended): an artifact set with raw or header input files, an
RM-corrected archive and no folded archive takes the fold branch (the
`rm_and_ar_exist` test fails), and the decision function's
ReportInconsistentState branch is unreachable for every artifact set. -/
theorem C2_ar2_without_ar_runs_fold :
    (∀ s : StageArtifactSet, (s.fits || s.hdr) = true → s.ar2 = true →
      s.ar = false → work_out_what_to_do s = .RunFold s.hdr) ∧
    (∀ s : StageArtifactSet, work_out_what_to_do s ≠ .ReportInconsistentState) := by
  constructor
  · intro s h1 h2 h3
    obtain ⟨f, hd, rf, rs, rv, ar, a2, cm⟩ := s
    cases f <;> cases hd <;> simp_all [work_out_what_to_do]
  · intro s
    obtain ⟨f, hd, rf, rs, rv, ar, a2, cm⟩ := s
    cases f <;> cases hd <;> cases rf <;> cases rv <;> cases ar <;> cases a2 <;>
      simp [work_out_what_to_do]

/-- C2 witness: the amended claim evaluated at a header-file directory holding
an RM-corrected archive and no folded archive. -/
theorem C2_ar2_without_ar_runs_fold_witness :
    work_out_what_to_do ⟨false, true, false, false, false, false, true, false⟩
      = .RunFold true ∧
    work_out_what_to_do ⟨false, true, false, false, false, false, true, false⟩
      ≠ .ReportInconsistentState :=
  ⟨C2_ar2_without_ar_runs_fold.1 ⟨false, true, false, false, false, false, true, false⟩
      rfl rfl rfl,
    C2_ar2_without_ar_runs_fold.2 ⟨false, true, false, false, false, false, true, false⟩⟩

/-- C7: invoking the RM-correction command builder with RM=None raises
ValueError immediately and appends nothing: the caller's commands object
comes back exactly as it was passed. -/
theorem C7_rm_cor_none_raises (run_dir archive_name ascii_name : String)
    (commands : Option (List String)) :
    add_rm_cor_to_commands run_dir archive_name none ascii_name commands
      = (.error .valueError, commands) := rfl

/-- C8 counterexample: the dspsr-fold builder invoked twice with identical
explicit arguments emits different command sequences when the hidden
module-level `run_params.no_ephem` flag differs, so it is not a pure function
of its explicit parameters. -/
theorem C8_counterexample :
    (add_dspsr_fold_to_commands "J0001+0001" "dir" 64 none none none none none
        "" false none none false).1 ≠
    (add_dspsr_fold_to_commands "J0001+0001" "dir" 64 none none none none none
        "" false none none true).1 := by
  intro h
  have hlen := congrArg List.length h
  simp [add_dspsr_fold_to_commands, pyAppendDefault, pyTruthyOptS] at hlen

/-- C8 (amended): the dspsr-fold builder's output is a function of its explicit
parameters plus the module-level `run_params.no_ephem` flag, and the
dependence on that hidden flag is real: for every choice of explicit
arguments, the command list built under a false global flag has exactly one
more command (the `psrcat` ephemeris generation) than under a true one. -/
theorem C8_fold_builder_hidden_global (pulsar run_dir : String) (nbins : ℕ)
    (out_name : Option String) (commands : Option (List String))
    (seek total subint : Option ℚ) (dspsr_ops : String) (no_ephem : Bool)
    (dm period : Option ℚ) :
    ((add_dspsr_fold_to_commands pulsar run_dir nbins out_name commands seek
        total subint dspsr_ops no_ephem dm period false).1).length =
    ((add_dspsr_fold_to_commands pulsar run_dir nbins out_name commands seek
        total subint dspsr_ops no_ephem dm period true).1).length + 1 := by
  unfold add_dspsr_fold_to_commands pyAppendDefault
  cases commands with
  | none => simp
  | some l =>
    by_cases hl : l = [] <;> simp [hl]

/-- C3 counterexample: with no synthesis file and no fit file the resolution
code of the plotting branch raises NameError (the local `rm` is never bound
before `if not rm:` runs) instead of attempting a catalogue lookup — the
catalogue cells, here (7, 1), are never consulted and never returned. -/
theorem C3_counterexample :
    resolve_rm_for_plot [] [] (some 7) (some 1) = .error .nameError ∧
    resolve_rm_for_plot [] [] (some 7) (some 1) ≠ .ok (some 7, some 1) :=
  ⟨rfl, fun h => Except.noConfusion h⟩

/-- C3 (amended): when a synthesis file exists and its RM is nonzero, the
synthesis pair is returned regardless of fit files; when only a fit file
exists and its parsed RM is nonzero, the fit-file result is returned; the
catalogue serves only as a fallback for a missing or zero file value, and
when neither file exists the code raises NameError instead of attempting
a catalogue lookup. -/
theorem C3_rm_precedence :
    (∀ (r e : ℚ) (rest : List (ℚ × ℚ)) (fits : List (List (List String)))
        (catRM catErr : Option ℚ), r ≠ 0 →
      resolve_rm_for_plot ((r, e) :: rest) fits catRM catErr = .ok (some r, some e)) ∧
    (∀ (f : List (List String)) (rest : List (List (List String)))
        (r : ℚ) (e : Option ℚ) (catRM catErr : Option ℚ),
      find_RM_from_file f = .ok (some r, e) → r ≠ 0 →
      resolve_rm_for_plot [] (f :: rest) catRM catErr = .ok (some r, e)) ∧
    (∀ catRM catErr : Option ℚ,
      resolve_rm_for_plot [] [] catRM catErr = .error .nameError) := by
  refine ⟨?_, ?_, fun _ _ => rfl⟩
  · intro r e rest fits catRM catErr hr
    simp [resolve_rm_for_plot, hr]
  · intro f rest r e catRM catErr hf hr
    simp [resolve_rm_for_plot, hf, pyTruthyOptQ, bne_iff_ne, hr]

/-- C3 witness: the three precedence branches evaluated on concrete inputs
(synthesis RM 40 beats a fit file carrying 7; a lone fit file yields 7;
no files raise). -/
theorem C3_rm_precedence_witness :
    (40 : ℚ) ≠ 0 ∧
    resolve_rm_for_plot [(40, 2)] [[["Best", "RM", "is", "7"]]] none none
      = .ok (some 40, some 2) ∧
    resolve_rm_for_plot [] [[["Best", "RM", "is", "7"]]] none none
      = .ok (some 7, none) ∧
    resolve_rm_for_plot [] [] none none = .error .nameError :=
  ⟨by norm_num,
   C3_rm_precedence.1 40 2 [] [[["Best", "RM", "is", "7"]]] none none (by norm_num),
   C3_rm_precedence.2.1 [["Best", "RM", "is", "7"]] [] 7 none none none rfl (by norm_num),
   C3_rm_precedence.2.2 none none⟩

/-- C5 counterexample: a fit file whose `Best RM` line carries 40.0 and no
uncertainty token resolves to uncertainty None — not 6.0 — both at the reader
and through the resolution path (even with a catalogue available). -/
theorem C5_counterexample :
    find_RM_from_file [["Best", "RM", "is", "40.0"]] = .ok (some 40, none) ∧
    resolve_rm_for_plot [] [[["Best", "RM", "is", "40.0"]]] (some 3) (some 1)
      = .ok (some 40, none) ∧
    (none : Option ℚ) ≠ some 6 := by
  have h : find_RM_from_file [["Best", "RM", "is", "40.0"]] =
      .ok (some (((40 : ℕ) : ℚ) + ((0 : ℕ) : ℚ) / 10 ^ 1), none) := rfl
  have h40 : (((40 : ℕ) : ℚ) + ((0 : ℕ) : ℚ) / 10 ^ 1) = 40 := by norm_num
  rw [h40] at h
  refine ⟨h, ?_, by decide⟩
  simp [resolve_rm_for_plot, h, pyTruthyOptQ]

/-- C5 (amended): the 15%-of-RM default uncertainty lives only in the
catalogue path — `find_RM_from_cat` substitutes `0.15 * RM` (not of the
magnitude: a negative RM yields a negative uncertainty) when the catalogue
uncertainty cell is NaN — while a fit-file `Best RM` line with an RM value
and no uncertainty token resolves to uncertainty None. -/
theorem C5_fallback_is_catalogue_only :
    (∀ r : ℚ, find_RM_from_cat (some r) none = (some r, some (0.15 * r))) ∧
    (∀ (t2 t3 : String) (r : ℚ), pyFloat? t3 = some r →
      find_RM_from_file [["Best", "RM", t2, t3]] = .ok (some r, none)) := by
  refine ⟨fun r => rfl, ?_⟩
  intro t2 t3 r h
  simp [find_RM_from_file, h]

/-- C5 witness: catalogue RM 40 with NaN uncertainty gives 6 (= 15% of 40);
a fit-file line `Best RM is 40` gives (40, None). -/
theorem C5_fallback_is_catalogue_only_witness :
    find_RM_from_cat (some 40) none = (some 40, some 6) ∧
    pyFloat? "40" = some 40 ∧
    find_RM_from_file [["Best", "RM", "is", "40"]] = .ok (some 40, none) := by
  refine ⟨?_, rfl, C5_fallback_is_catalogue_only.2 "is" "40" 40 rfl⟩
  rw [C5_fallback_is_catalogue_only.1 40]
  norm_num

/-- A line the reader's loop skips leaves the result unchanged. -/
theorem find_RM_skip (l : List String) (rest : List (List String))
    (h : skipsBestRM l = true) :
    find_RM_from_file (l :: rest) = find_RM_from_file rest := by
  match l with
  | [] => simp [skipsBestRM] at h
  | [t0] =>
    simp only [skipsBestRM, Bool.not_eq_true', decide_eq_false_iff_not] at h
    simp only [find_RM_from_file]
    rw [if_neg h]
  | t0 :: t1 :: ts =>
    simp only [skipsBestRM, Bool.not_eq_true'] at h
    simp only [find_RM_from_file]
    rw [if_neg (by simp [h])]

/-- A prefix of skipped lines leaves the result unchanged. -/
theorem find_RM_skip_all (pre rest : List (List String))
    (h : ∀ l ∈ pre, skipsBestRM l = true) :
    find_RM_from_file (pre ++ rest) = find_RM_from_file rest := by
  induction pre with
  | nil => rfl
  | cons l ls ih =>
    rw [List.cons_append, find_RM_skip l (ls ++ rest) (h l (by simp)),
      ih (fun x hx => h x (by simp [hx]))]

/-- C9 counterexample: a `Best RM` line with exactly five whitespace tokens
(an RM value present, no sixth token) makes the reader raise IndexError —
parsing is not total, and the no-uncertainty case does not return cleanly. -/
theorem C9_counterexample :
    find_RM_from_file [["Best", "RM", "is", "40", "x"]] = .error .indexError := rfl

/-- C9 (amended): past any prefix of skippable lines, the first `Best RM`
line determines the result: with exactly four tokens and a numeric fourth
token the reader returns (RM, None); with six or more tokens and numeric
fourth and sixth tokens it returns (RM, uncertainty); with exactly five
tokens (and a numeric fourth) it raises IndexError, because the code guards
`line[5]` with `len(line) >= 5` instead of `>= 6`. -/
theorem C9_best_rm_line_shapes (pre rest : List (List String))
    (t2 t3 t4 t5 : String) (more : List String) (r e : ℚ)
    (hpre : ∀ l ∈ pre, skipsBestRM l = true)
    (h3 : pyFloat? t3 = some r) (h5 : pyFloat? t5 = some e) :
    find_RM_from_file (pre ++ ["Best", "RM", t2, t3] :: rest) = .ok (some r, none) ∧
    find_RM_from_file (pre ++ ("Best" :: "RM" :: t2 :: t3 :: t4 :: t5 :: more) :: rest)
      = .ok (some r, some e) ∧
    find_RM_from_file (pre ++ ["Best", "RM", t2, t3, t4] :: rest)
      = .error .indexError := by
  refine ⟨?_, ?_, ?_⟩ <;> rw [find_RM_skip_all _ _ hpre]
  · simp [find_RM_from_file, h3, List.get?]
  · have hlen : ("Best" :: "RM" :: t2 :: t3 :: t4 :: t5 :: more).length ≥ 5 := by
      simp only [List.length_cons]
      omega
    simp [find_RM_from_file, h3, h5, hlen, List.get?]
  · simp [find_RM_from_file, h3, List.get?]

/-- C9 witness: the three line shapes evaluated after a skipped header line. -/
theorem C9_best_rm_line_shapes_witness :
    find_RM_from_file [["Header"], ["Best", "RM", "is", "40"]] = .ok (some 40, none) ∧
    find_RM_from_file [["Header"], ["Best", "RM", "is", "40", "+/-", "2"]]
      = .ok (some 40, some 2) ∧
    find_RM_from_file [["Header"], ["Best", "RM", "is", "40", "x"]]
      = .error .indexError :=
  C9_best_rm_line_shapes [["Header"]] [] "is" "40" "+/-" "2" [] 40 2
    (by decide) rfl rfl

/-- C10: the RVM-fit, RM-correction, RM-fit and dspsr-fold builders, handed an
existing empty `commands` list, append to a fresh list identical to the one a
`None` call would return (so the emitted commands are visible only through
the return value) and hand the caller's empty list object back unchanged. -/
theorem C10_empty_commands_list_unmutated :
    (∀ (rd an outn : String) (res : ℕ),
      add_rvm_to_commands rd an outn (some []) res
        = ((add_rvm_to_commands rd an outn none res).1, some []) ∧
      (add_rvm_to_commands rd an outn (some []) res).1 ≠ []) ∧
    (∀ (rd an asc : String) (r : ℚ), r ≠ 0 →
      add_rm_cor_to_commands rd an (some r) asc (some [])
        = ((add_rm_cor_to_commands rd an (some r) asc none).1, some []) ∧
      (add_rm_cor_to_commands rd an (some r) asc (some [])).1 ≠ .ok []) ∧
    (∀ (p rd an : String) (outn : Option String),
      add_rm_fit_to_commands p rd an outn (some [])
        = ((add_rm_fit_to_commands p rd an outn none).1, some []) ∧
      (add_rm_fit_to_commands p rd an outn (some [])).1 ≠ []) ∧
    (∀ (p rd : String) (nb : ℕ) (outn : Option String) (sk tt sb : Option ℚ)
        (ops : String) (ne : Bool) (dm per : Option ℚ) (g : Bool),
      add_dspsr_fold_to_commands p rd nb outn (some []) sk tt sb ops ne dm per g
        = ((add_dspsr_fold_to_commands p rd nb outn none sk tt sb ops ne dm per g).1,
           some []) ∧
      (add_dspsr_fold_to_commands p rd nb outn (some []) sk tt sb ops ne dm per g).1
        ≠ []) := by
  refine ⟨?_, ?_, ?_, ?_⟩
  · intro rd an outn res
    exact ⟨rfl, by simp [add_rvm_to_commands, pyAppendDefault]⟩
  · intro rd an asc r hr
    constructor
    · simp [add_rm_cor_to_commands, pyAppendDefault, hr]
    · simp [add_rm_cor_to_commands, pyAppendDefault, hr]
  · intro p rd an outn
    exact ⟨rfl, by simp [add_rm_fit_to_commands, pyAppendDefault]⟩
  · intro p rd nb outn sk tt sb ops ne dm per g
    constructor
    · rfl
    · cases g <;> simp [add_dspsr_fold_to_commands, pyAppendDefault]

/-- C10 witness: the four builders evaluated at concrete arguments with an
empty caller list. -/
theorem C10_empty_commands_list_unmutated_witness :
    (add_rvm_to_commands "d" "a" "o" (some []) 90
        = ((add_rvm_to_commands "d" "a" "o" none 90).1, some []) ∧
      (add_rvm_to_commands "d" "a" "o" (some []) 90).1 ≠ []) ∧
    ((40 : ℚ) ≠ 0 ∧
      add_rm_cor_to_commands "d" "a" (some 40) "x" (some [])
        = ((add_rm_cor_to_commands "d" "a" (some 40) "x" none).1, some []) ∧
      (add_rm_cor_to_commands "d" "a" (some 40) "x" (some [])).1 ≠ .ok []) ∧
    (add_rm_fit_to_commands "J" "d" "a" none (some [])
        = ((add_rm_fit_to_commands "J" "d" "a" none none).1, some []) ∧
      (add_rm_fit_to_commands "J" "d" "a" none (some [])).1 ≠ []) ∧
    (add_dspsr_fold_to_commands "J" "d" 64 none (some []) none none none "" false
        none none false
        = ((add_dspsr_fold_to_commands "J" "d" 64 none none none none none ""
            false none none false).1, some []) ∧
      (add_dspsr_fold_to_commands "J" "d" 64 none (some []) none none none ""
        false none none false).1 ≠ []) :=
  ⟨C10_empty_commands_list_unmutated.1 "d" "a" "o" 90,
   ⟨by norm_num, C10_empty_commands_list_unmutated.2.1 "d" "a" "x" 40 (by norm_num)⟩,
   C10_empty_commands_list_unmutated.2.2.1 "J" "d" "a" none,
   C10_empty_commands_list_unmutated.2.2.2 "J" "d" 64 none none none none ""
     false none none false⟩

/-- C4: the dspsr fold/rmfit stage and the RM-correction-and-RVM stage build
their stage commands and append the self-relaunch line as the final command
exactly when the RunContext stop flag is unset; the inverse-PFB stage,
however, never reaches its relaunch conditional: it raises (AttributeError on
the misspelled `run_params.puslar` once the observation window is defined,
line 625), so no inverse-PFB command list is ever produced, stop flag or not. -/
theorem C4_stop_suppresses_relaunch :
    (∀ (rp : RunParams) (enter leave : Option ℚ),
      submit_dspsr_rmfit_commands rp enter leave =
        (dspsr_rmfit_stage rp enter leave).map
          (fun c => if rp.stop then c else c ++ [stokes_launch_line rp])) ∧
    (∀ (rp : RunParams) (ipfb : Bool) (synths : List (ℚ × ℚ))
        (fits : List (List (List String))) (catRM catErr : Option ℚ),
      submit_rm_cor_rvm_commands rp ipfb synths fits catRM catErr =
        (rm_cor_rvm_stage rp ipfb synths fits catRM catErr).map
          (fun c => if rp.stop then c else c ++ [stokes_launch_line rp])) ∧
    (∀ (rp : RunParams) (stop : Bool) (enter leave : Option ℚ),
      (submit_inverse_pfb_fold_commands rp stop enter leave).isOk = false) ∧
    (∀ (rp : RunParams) (stop : Bool) (enter leave : Option ℚ) (b e : ℚ),
      rp.beg = some b → rp.end_ = some e →
      submit_inverse_pfb_fold_commands rp stop enter leave
        = .error .attributeError) := by
  refine ⟨?_, ?_, ?_, ?_⟩
  · intro rp enter leave
    unfold submit_dspsr_rmfit_commands
    cases dspsr_rmfit_stage rp enter leave <;> simp [Except.map]
  · intro rp ipfb synths fits catRM catErr
    unfold submit_rm_cor_rvm_commands
    cases rm_cor_rvm_stage rp ipfb synths fits catRM catErr <;> simp [Except.map]
  · intro rp stop enter leave
    unfold submit_inverse_pfb_fold_commands
    cases hw : beam_window rp.cand rp.beg rp.end_ enter leave with
    | error e => simp [Except.isOk, Except.toBool]
    | ok p =>
      obtain ⟨es, d⟩ := p
      cases hb : rp.beg <;> cases he : rp.end_ <;> simp [Except.isOk, Except.toBool]
  · intro rp stop enter leave b e hb he
    unfold submit_inverse_pfb_fold_commands beam_window
    rw [hb, he]
    cases rp.cand <;> cases enter <;> cases leave <;> simp

/-- C4 witness: a concrete RunContext with defined observation window; the
inverse-PFB submit path raises AttributeError. -/
theorem C4_stop_suppresses_relaunch_witness :
    submit_inverse_pfb_fold_commands
      ⟨"d", "J0001+0001", "12345", true, 64, none, some 0, some 100, "", false,
        none, none, false, 90⟩ false none none = .error .attributeError :=
  C4_stop_suppresses_relaunch.2.2.2
    ⟨"d", "J0001+0001", "12345", true, 64, none, some 0, some 100, "", false,
      none, none, false, 90⟩ false none none 0 100 rfl rfl

/-- Generic transport of a per-step someness law through the reading loop. -/
theorem rvmScan_isSome_field {X : Type} (get : RvmScan → Option X)
    (p : RvmLine → Bool)
    (hstep : ∀ s l, (get (rvmScanStep s l)).isSome = ((get s).isSome || p l)) :
    ∀ (lines : List RvmLine) (s : RvmScan),
      (get (lines.foldl rvmScanStep s)).isSome = ((get s).isSome || lines.any p) := by
  intro lines
  induction lines with
  | nil => intro s; simp
  | cons l ls ih =>
    intro s
    rw [List.foldl_cons, ih, hstep, List.any_cons, Bool.or_assoc]

/-- The loop's element counter counts exactly the trial `alpha=` lines. -/
theorem rvmScan_nElements (lines : List RvmLine) :
    ∀ s : RvmScan,
      (lines.foldl rvmScanStep s).nElements = s.nElements + countAlphaTrial lines := by
  induction lines with
  | nil => intro s; simp [countAlphaTrial]
  | cons l ls ih =>
    intro s
    rw [List.foldl_cons, ih]
    cases l <;> simp [rvmScanStep, countAlphaTrial, List.countP_cons] <;> omega

/-- When every key was found, `read_rvm_fit_file` returns the assembled
record, its `alpha_e` and `zeta_e` fields both set to
`180 / sqrt(n_elements) / 2`. -/
theorem read_rvm_spec (sqrtQ : ℕ → ℚ) (lines : List RvmLine)
    (nb : ℤ) (rc : ℚ) (df : ℤ) (p0 p0e z a ph phe : ℚ)
    (h1 : (rvmScan lines).nbins = some nb)
    (h2 : (rvmScan lines).redchisq = some rc)
    (h3 : (rvmScan lines).dof = some df)
    (h4 : (rvmScan lines).psi_0 = some p0)
    (h5 : (rvmScan lines).psi_0_e = some p0e)
    (h6 : (rvmScan lines).zeta = some z)
    (h7 : (rvmScan lines).alpha = some a)
    (h8 : (rvmScan lines).phi_0 = some ph)
    (h9 : (rvmScan lines).phi_0_e = some phe) :
    read_rvm_fit_file sqrtQ lines =
      .ok ⟨nb, rc, df, p0, p0e, z, 180 / sqrtQ (rvmScan lines).nElements / 2, a,
           180 / sqrtQ (rvmScan lines).nElements / 2, ph, phe⟩ := by
  unfold read_rvm_fit_file
  rw [h1, h2, h3, h4, h5, h6, h7, h8, h9]

/-- A successful parse needed every checked key to have been found. -/
theorem read_rvm_ok_fields (sqrtQ : ℕ → ℚ) (lines : List RvmLine) (d : RvmDict)
    (h : read_rvm_fit_file sqrtQ lines = .ok d) :
    (rvmScan lines).nbins.isSome = true ∧ (rvmScan lines).redchisq.isSome = true ∧
    (rvmScan lines).dof.isSome = true ∧ (rvmScan lines).psi_0.isSome = true ∧
    (rvmScan lines).psi_0_e.isSome = true ∧ (rvmScan lines).zeta.isSome = true ∧
    (rvmScan lines).alpha.isSome = true ∧ (rvmScan lines).phi_0.isSome = true ∧
    (rvmScan lines).phi_0_e.isSome = true := by
  unfold read_rvm_fit_file at h
  repeat' split at h
  all_goals simp_all

/-- C6: the RVM fit-file parser raises the not-found condition whenever a
required key's line kind is absent (a parse succeeds only if bins, chisq,
psi_0, zeta, alpha and phi_0 lines were all seen — in particular a file
missing the `chisq=` line always raises), and on every complete file it
returns a fully populated record whose `alpha_e` and `zeta_e` both equal
`180 / sqrt(n_elements) / 2` with `n_elements` the number of counted
`alpha=` trial lines. -/
theorem C6_rvm_parse_completeness (sqrtQ : ℕ → ℚ) (lines : List RvmLine) :
    (∀ d, read_rvm_fit_file sqrtQ lines = .ok d →
      (lines.any isBinsLine = true ∧ lines.any isChisqLine = true ∧
       lines.any isPsi0Line = true ∧ lines.any isZetaLine = true ∧
       lines.any isAlphaFitLine = true ∧ lines.any isPhi0Line = true)) ∧
    ((lines.any isBinsLine = true ∧ lines.any isChisqLine = true ∧
      lines.any isPsi0Line = true ∧ lines.any isZetaLine = true ∧
      lines.any isAlphaFitLine = true ∧ lines.any isPhi0Line = true) →
      ∃ d, read_rvm_fit_file sqrtQ lines = .ok d ∧
        d.alpha_e = 180 / sqrtQ (countAlphaTrial lines) / 2 ∧
        d.zeta_e = 180 / sqrtQ (countAlphaTrial lines) / 2) := by
  have hnb : (rvmScan lines).nbins.isSome = lines.any isBinsLine := by
    simpa [rvmScan] using rvmScan_isSome_field (fun s => s.nbins) isBinsLine
      (by intro s l; cases l <;> simp [rvmScanStep, isBinsLine]) lines {}
  have hrc : (rvmScan lines).redchisq.isSome = lines.any isChisqLine := by
    simpa [rvmScan] using rvmScan_isSome_field (fun s => s.redchisq) isChisqLine
      (by intro s l; cases l <;> simp [rvmScanStep, isChisqLine]) lines {}
  have hdf : (rvmScan lines).dof.isSome = lines.any isChisqLine := by
    simpa [rvmScan] using rvmScan_isSome_field (fun s => s.dof) isChisqLine
      (by intro s l; cases l <;> simp [rvmScanStep, isChisqLine]) lines {}
  have hp0 : (rvmScan lines).psi_0.isSome = lines.any isPsi0Line := by
    simpa [rvmScan] using rvmScan_isSome_field (fun s => s.psi_0) isPsi0Line
      (by intro s l; cases l <;> simp [rvmScanStep, isPsi0Line]) lines {}
  have hp0e : (rvmScan lines).psi_0_e.isSome = lines.any isPsi0Line := by
    simpa [rvmScan] using rvmScan_isSome_field (fun s => s.psi_0_e) isPsi0Line
      (by intro s l; cases l <;> simp [rvmScanStep, isPsi0Line]) lines {}
  have hz : (rvmScan lines).zeta.isSome = lines.any isZetaLine := by
    simpa [rvmScan] using rvmScan_isSome_field (fun s => s.zeta) isZetaLine
      (by intro s l; cases l <;> simp [rvmScanStep, isZetaLine]) lines {}
  have hal : (rvmScan lines).alpha.isSome = lines.any isAlphaFitLine := by
    simpa [rvmScan] using rvmScan_isSome_field (fun s => s.alpha) isAlphaFitLine
      (by intro s l; cases l <;> simp [rvmScanStep, isAlphaFitLine]) lines {}
  have hph : (rvmScan lines).phi_0.isSome = lines.any isPhi0Line := by
    simpa [rvmScan] using rvmScan_isSome_field (fun s => s.phi_0) isPhi0Line
      (by intro s l; cases l <;> simp [rvmScanStep, isPhi0Line]) lines {}
  have hphe : (rvmScan lines).phi_0_e.isSome = lines.any isPhi0Line := by
    simpa [rvmScan] using rvmScan_isSome_field (fun s => s.phi_0_e) isPhi0Line
      (by intro s l; cases l <;> simp [rvmScanStep, isPhi0Line]) lines {}
  have hn : (rvmScan lines).nElements = countAlphaTrial lines := by
    simpa [rvmScan] using rvmScan_nElements lines {}
  constructor
  · intro d h
    obtain ⟨a1, a2, _, a4, _, a6, a7, a8, _⟩ := read_rvm_ok_fields sqrtQ lines d h
    exact ⟨hnb.symm.trans a1, hrc.symm.trans a2, hp0.symm.trans a4,
      hz.symm.trans a6, hal.symm.trans a7, hph.symm.trans a8⟩
  · rintro ⟨b1, b2, b3, b4, b5, b6⟩
    obtain ⟨nb, h1⟩ := Option.isSome_iff_exists.mp (hnb.trans b1)
    obtain ⟨rc, h2⟩ := Option.isSome_iff_exists.mp (hrc.trans b2)
    obtain ⟨df, h3⟩ := Option.isSome_iff_exists.mp (hdf.trans b2)
    obtain ⟨p0, h4⟩ := Option.isSome_iff_exists.mp (hp0.trans b3)
    obtain ⟨p0e, h5⟩ := Option.isSome_iff_exists.mp (hp0e.trans b3)
    obtain ⟨z, h6⟩ := Option.isSome_iff_exists.mp (hz.trans b4)
    obtain ⟨av, h7⟩ := Option.isSome_iff_exists.mp (hal.trans b5)
    obtain ⟨ph, h8⟩ := Option.isSome_iff_exists.mp (hph.trans b6)
    obtain ⟨phe, h9⟩ := Option.isSome_iff_exists.mp (hphe.trans b6)
    exact ⟨_, read_rvm_spec sqrtQ lines nb rc df p0 p0e z av ph phe
      h1 h2 h3 h4 h5 h6 h7 h8 h9, by simp [hn], by simp [hn]⟩

/-- C6 witness: a complete fit file with four trial `alpha=` lines parses
into a record with `alpha_e = zeta_e = 180/sqrt(4)/2` (sqrt modelled by the
witness function `fun n => n`). -/
theorem C6_rvm_parse_completeness_witness :
    ∃ d, read_rvm_fit_file (fun n => (n : ℚ)) rvmSampleLines = .ok d ∧
      d.alpha_e = 180 / ((4 : ℕ) : ℚ) / 2 ∧ d.zeta_e = 180 / ((4 : ℕ) : ℚ) / 2 :=
  (C6_rvm_parse_completeness (fun n => (n : ℚ)) rvmSampleLines).2
    ⟨by decide, by decide, by decide, by decide, by decide, by decide⟩
